/-
Verification of the campus-life application's data-fetching core:
the personalized feed selector (`fetchFeaturedEvents` in App.tsx),
the search aggregator (`performSearch` in SearchPage.tsx),
the edit-announcement submit handler (EditAnnouncementModal.tsx),
and the clubs-page fetch (Clubs.tsx).

Dates and timestamps are ISO-8601 strings in the source, compared by the
backend's total order; they are embedded as `Nat` with `≤`, which has the
same order structure. Backend query failures are injected through explicit
`Option String` / `Except String` fields of the backend records, mirroring
the `{ data, error }` pairs the query client returns.
-/
import Mathlib

/-! ### Personalized feed selector (App.tsx, fetchFeaturedEvents) -/

/-- A row of the `events` table as selected by the featured-events queries
(`id, title, date, image_url, category, club:clubs(name)`). The club join is
a single optional name. -/
structure FeaturedEvent where
  id : String
  title : String
  date : Nat
  image_url : Option String
  category : Option String
  clubName : Option String
deriving DecidableEq, Repr

/-- Date order on events, used by `.order('date', { ascending: true })`. -/
def dateLe (a b : FeaturedEvent) : Prop :=
  a.date ≤ b.date

instance : DecidableRel dateLe :=
  fun a b => Nat.decLe a.date b.date

instance : IsTotal FeaturedEvent dateLe :=
  ⟨fun a b => Nat.le_total a.date b.date⟩

instance : IsTrans FeaturedEvent dateLe :=
  ⟨fun _ _ _ => Nat.le_trans⟩

/-- The shape of a query against the `events` table issued by
`fetchFeaturedEvents`: `.gte('date', dateGte)`, an optional
`.in('category', cats)` filter, `.order('date', { ascending })`, and
`.limit(lim)`. -/
structure EventsQuery where
  dateGte : Nat
  categoryIn : Option (List String)
  ascending : Bool
  lim : Nat
deriving DecidableEq, Repr

/-- Row filter of an `EventsQuery`: date ≥ bound, and when a category list is
present the row's category must be one of them (a row with no category never
matches an `IN` filter). -/
def matchesEventsQuery (q : EventsQuery) (e : FeaturedEvent) : Bool :=
  decide (q.dateGte ≤ e.date) &&
    match q.categoryIn with
    | none => true
    | some cats =>
      match e.category with
      | none => false
      | some c => cats.contains c

/-- Backend evaluation of an `EventsQuery` over the events table: filter,
order by date, truncate to the limit. -/
def runEventsQuery (db : List FeaturedEvent) (q : EventsQuery) : List FeaturedEvent :=
  let sorted :=
    if q.ascending then (db.filter (matchesEventsQuery q)).insertionSort dateLe
    else (db.filter (matchesEventsQuery q)).insertionSort fun a b => dateLe b a
  sorted.take q.lim

/-- The backend as seen by one run of `fetchFeaturedEvents`: the events table,
the outcome of the `profiles` interests read for the current user
(`.single()` may error; a row whose `interests` is absent or not an array
gives `none`), and injected failures for the two events-table queries. -/
structure FeedBackend where
  db : List FeaturedEvent
  profileInterests : Except String (Option (List String))
  interestQueryError : Option String
  fallbackQueryError : Option String

/-- Step 1 of `fetchFeaturedEvents`: the interests in scope after the profile
read. No user gives `null`; a profile error is only logged (not thrown), so
it also leaves the interests `null`. -/
def effectiveInterests (user : Option String) (b : FeedBackend) : Option (List String) :=
  match user with
  | none => none
  | some _ =>
    match b.profileInterests with
    | .error _ => none
    | .ok ints => ints

/-- The step-2 query: upcoming events whose category is in the interest set,
date ascending, limit 3. -/
def interestQuery (today : Nat) (ints : List String) : EventsQuery :=
  { dateGte := today, categoryIn := some ints, ascending := true, lim := 3 }

/-- The step-3 fallback query: upcoming events, no category filter, date
ascending, limit 3. -/
def fallbackQuery (today : Nat) : EventsQuery :=
  { dateGte := today, categoryIn := none, ascending := true, lim := 3 }

/-- Result of one run of `fetchFeaturedEvents`: the list passed to
`setFeaturedEvents`, the events-table queries issued in order, and whether
the profile read was issued. -/
structure FeedResult where
  events : List FeaturedEvent
  queries : List EventsQuery
  profileQueried : Bool
deriving DecidableEq, Repr

/-- Step 3 of `fetchFeaturedEvents`, reached with `fetchedEvents.length === 0`:
issue the fallback query; a thrown error is caught and yields the empty
list. -/
def issueFallback (today : Nat) (b : FeedBackend) (prev : List EventsQuery)
    (pq : Bool) : FeedResult :=
  match b.fallbackQueryError with
  | some _ => { events := [], queries := prev ++ [fallbackQuery today], profileQueried := pq }
  | none =>
      { events := runEventsQuery b.db (fallbackQuery today)
        queries := prev ++ [fallbackQuery today]
        profileQueried := pq }

/-- `fetchFeaturedEvents` (App.tsx lines 72–157): read interests when a user
is present, try the interest-filtered query when interests are non-empty,
fall back to the generic upcoming-events query when that yielded nothing;
a thrown query error is caught and sets the list empty. -/
def fetchFeaturedEvents (today : Nat) (user : Option String) (b : FeedBackend) : FeedResult :=
  let pq := user.isSome
  match effectiveInterests user b with
  | some ints =>
    if 0 < ints.length then
      match b.interestQueryError with
      | some _ => { events := [], queries := [interestQuery today ints], profileQueried := pq }
      | none =>
        let d := runEventsQuery b.db (interestQuery today ints)
        if 0 < d.length then
          { events := d, queries := [interestQuery today ints], profileQueried := pq }
        else
          issueFallback today b [interestQuery today ints] pq
    else
      issueFallback today b [] pq
  | none => issueFallback today b [] pq

/-! ### Search aggregator (SearchPage.tsx, performSearch) -/

/-- A row of `events` as selected by the search query
(`id, title, date, description`). -/
structure SearchEvent where
  id : String
  title : String
  date : Nat
  description : String
deriving DecidableEq, Repr

/-- A row of `clubs` as selected by the search query
(`id, name, description`). -/
structure SearchClub where
  id : String
  name : String
  description : String
deriving DecidableEq, Repr

/-- A row of `announcements` as selected by the search query
(`id, title, content, created_at`). -/
structure SearchAnnouncement where
  id : String
  title : String
  content : String
  created_at : Nat
deriving DecidableEq, Repr

/-- Substring test on character lists, the core of the `ILIKE '%q%'`
pattern. -/
def listContains (needle : List Char) : List Char → Bool
  | [] => needle.isEmpty
  | c :: rest => needle.isPrefixOf (c :: rest) || listContains needle rest

/-- Case-insensitive substring containment: the meaning of
`column.ilike.%query%`. Case folding is per-character basic-latin
lowercasing, applied to both sides. -/
def ilikeContains (hay pat : String) : Bool :=
  listContains (pat.toList.map Char.toLower) (hay.toList.map Char.toLower)

/-- Backend evaluation of the events search: title OR description matches,
capped at 10 rows. -/
def runEventsSearch (db : List SearchEvent) (q : String) : List SearchEvent :=
  (db.filter fun e => ilikeContains e.title q || ilikeContains e.description q).take 10

/-- Backend evaluation of the clubs search: name OR description matches,
capped at 10 rows. -/
def runClubsSearch (db : List SearchClub) (q : String) : List SearchClub :=
  (db.filter fun c => ilikeContains c.name q || ilikeContains c.description q).take 10

/-- Backend evaluation of the announcements search: title OR content matches,
ordered newest-first (`created_at` descending), capped at 10 rows. -/
def runAnnsSearch (db : List SearchAnnouncement) (q : String) : List SearchAnnouncement :=
  (((db.filter fun a => ilikeContains a.title q || ilikeContains a.content q).insertionSort
      fun a b => b.created_at ≤ a.created_at).take 10)

/-- One backend request issued by `performSearch`, with its pattern, limit
and (for announcements) ordering. -/
inductive SearchQuery where
  | events (pattern : String) (lim : Nat)
  | clubs (pattern : String) (lim : Nat)
  | announcements (pattern : String) (newestFirst : Bool) (lim : Nat)
deriving DecidableEq, Repr

/-- The three tables plus injected failures, as seen by one run of
`performSearch`. -/
structure SearchBackend where
  eventsDb : List SearchEvent
  clubsDb : List SearchClub
  annsDb : List SearchAnnouncement
  eventsError : Option String
  clubsError : Option String
  annsError : Option String

/-- The component state of `SearchPage`: the three result lists, the loading
flag and the error message. -/
structure SearchState where
  events : List SearchEvent
  clubs : List SearchClub
  announcements : List SearchAnnouncement
  loading : Bool
  error : Option String
deriving DecidableEq, Repr

/-- State on mount: empty lists, loading true, no error. -/
def initialSearchState : SearchState :=
  { events := [], clubs := [], announcements := [], loading := true, error := none }

/-- `performSearch` (SearchPage.tsx lines 392–441) as a state transition,
also returning the backend queries it issued in order. `!query` (a missing
or empty `q` parameter) returns early, only clearing the loading flag.
Otherwise the state is reset, the three queries are awaited in sequence,
and the first error jumps to the catch block, which records the message;
the finally block clears the loading flag. -/
def performSearch (query : Option String) (b : SearchBackend) (s : SearchState) :
    SearchState × List SearchQuery :=
  match query with
  | none => ({ s with loading := false }, [])
  | some q =>
    if q = "" then ({ s with loading := false }, [])
    else
      let s1 : SearchState :=
        { events := [], clubs := [], announcements := [], loading := true, error := none }
      match b.eventsError with
      | some e => ({ s1 with error := some e, loading := false }, [.events q 10])
      | none =>
        let s2 := { s1 with events := runEventsSearch b.eventsDb q }
        match b.clubsError with
        | some e => ({ s2 with error := some e, loading := false }, [.events q 10, .clubs q 10])
        | none =>
          let s3 := { s2 with clubs := runClubsSearch b.clubsDb q }
          match b.annsError with
          | some e =>
              ({ s3 with error := some e, loading := false },
               [.events q 10, .clubs q 10, .announcements q true 10])
          | none =>
              ({ s3 with announcements := runAnnsSearch b.annsDb q, loading := false },
               [.events q 10, .clubs q 10, .announcements q true 10])

/-- What the page shows for a given state: the searching indicator while
loading, the error message when one is set, otherwise the three result
lists (SearchPage.tsx lines 452–456). -/
inductive SearchView where
  | searching
  | failure (msg : String)
  | results (events : List SearchEvent) (clubs : List SearchClub)
      (announcements : List SearchAnnouncement)
deriving DecidableEq, Repr

/-- Render gate of `SearchPage`: category data is rendered only when
`!loading && !error`. -/
def renderSearch (s : SearchState) : SearchView :=
  if s.loading then .searching
  else
    match s.error with
    | some e => .failure e
    | none => .results s.events s.clubs s.announcements

/-- The synchronous prefix of a `performSearch` run, up to the first await:
reset the state and raise the loading flag. -/
def searchChunk0 (_ : SearchState) : SearchState :=
  { events := [], clubs := [], announcements := [], loading := true, error := none }

/-- The continuation after the events await resolves (success path). -/
def searchChunk1 (b : SearchBackend) (q : String) (s : SearchState) : SearchState :=
  { s with events := runEventsSearch b.eventsDb q }

/-- The continuation after the clubs await resolves (success path). -/
def searchChunk2 (b : SearchBackend) (q : String) (s : SearchState) : SearchState :=
  { s with clubs := runClubsSearch b.clubsDb q }

/-- The continuation after the announcements await resolves (success path),
including the finally block. -/
def searchChunk3 (b : SearchBackend) (q : String) (s : SearchState) : SearchState :=
  { s with announcements := runAnnsSearch b.annsDb q, loading := false }

/-- A successful `performSearch` run split at its await points: the atomic
state updates the event loop may interleave with other runs. -/
def searchChunks (b : SearchBackend) (q : String) : List (SearchState → SearchState) :=
  [searchChunk0, searchChunk1 b q, searchChunk2 b q, searchChunk3 b q]

/-- Run a sequence of atomic state updates in order. -/
def runActions (l : List (SearchState → SearchState)) (s : SearchState) : SearchState :=
  l.foldl (fun st f => f st) s

/-! ### Edit-announcement submit (EditAnnouncementModal.tsx, handleSubmit) -/

/-- The authenticated user as read from the auth store. -/
structure AuthUser where
  id : String
  is_admin : Bool
deriving DecidableEq, Repr

/-- A row of the `announcements` table. -/
structure AnnouncementRow where
  id : String
  title : String
  content : String
  created_at : Nat
  created_by : Option String
deriving DecidableEq, Repr

/-- The update query built by `handleSubmit`: set title and content, filtered
by `.eq('id', idEq)`. -/
structure AnnUpdate where
  newTitle : String
  newContent : String
  idEq : String
deriving DecidableEq, Repr

/-- Outcome of one form submission: either an error message is set and no
backend call happens, or the update query is issued. -/
inductive SubmitOutcome where
  | err (msg : String)
  | update (q : AnnUpdate)
deriving DecidableEq, Repr

/-- JS `String.prototype.trim` over the character list: drop whitespace from
both ends. -/
def trimChars (l : List Char) : List Char :=
  ((l.dropWhile Char.isWhitespace).reverse.dropWhile Char.isWhitespace).reverse

/-- Trimming a string, as `title.trim()` / `content.trim()` do. -/
def strTrim (s : String) : String :=
  ⟨trimChars s.toList⟩

/-- The permission test of `handleSubmit`:
`user && (user.id === announcement.created_by || user.is_admin)`. -/
def canEditAnnouncement (user : Option AuthUser) (a : AnnouncementRow) : Bool :=
  match user with
  | none => false
  | some u => a.created_by == some u.id || u.is_admin

/-- `handleSubmit` (EditAnnouncementModal.tsx lines 40–80): guard on a
selected announcement, on permission, and on non-blank trimmed title and
content; otherwise issue the update with the trimmed values targeting the
announcement's id. -/
def handleSubmit (ann : Option AnnouncementRow) (user : Option AuthUser)
    (title content : String) : SubmitOutcome :=
  match ann with
  | none => .err "No announcement selected for editing."
  | some a =>
    if !canEditAnnouncement user a then
      .err "You don't have permission to edit this announcement."
    else if strTrim title = "" || strTrim content = "" then
      .err "Title and content cannot be empty."
    else
      .update { newTitle := strTrim title, newContent := strTrim content, idEq := a.id }

/-- Backend effect of the update query: every row whose id matches the filter
gets the new title and content; every other row is unchanged. -/
def applyAnnUpdate (db : List AnnouncementRow) (q : AnnUpdate) : List AnnouncementRow :=
  db.map fun a =>
    if a.id = q.idEq then { a with title := q.newTitle, content := q.newContent } else a

/-! ### Clubs page fetch (Clubs.tsx, fetchData) -/

/-- A row of the `clubs` table as selected by `select('*, created_by')`. -/
structure ClubRow where
  id : String
  name : String
  description : String
  created_by : Option String
deriving DecidableEq, Repr

/-- The backend as seen by one run of the clubs-page `fetchData`: the clubs
read and (for a signed-in user) the membership read, either of which may
fail. Membership rows are the `club_id` values. -/
structure ClubsBackend where
  clubsResult : Except String (List ClubRow)
  membershipResult : Except String (List String)

/-- The component state of `Clubs` that `fetchData` touches. -/
structure ClubsPageState where
  clubs : List ClubRow
  memberships : List String
  loading : Bool
  error : Option String
deriving DecidableEq, Repr

/-- `fetchData` (Clubs.tsx lines 36–68) as a state transition: read clubs,
then memberships when a user is present; on success replace both lists and
clear the error; a thrown error only records the message and leaves the
lists as they were; the finally block clears the loading flag. -/
def fetchData (user : Option String) (b : ClubsBackend) (s : ClubsPageState) : ClubsPageState :=
  let s0 := if s.clubs.length = 0 then { s with loading := true } else s
  match b.clubsResult with
  | .error e => { s0 with error := some e, loading := false }
  | .ok clubsData =>
    match user with
    | some _ =>
      match b.membershipResult with
      | .error e => { s0 with error := some e, loading := false }
      | .ok ms =>
          { s0 with
            clubs := clubsData, memberships := ms, error := none, loading := false }
    | none =>
        { s0 with clubs := clubsData, memberships := [], error := none, loading := false }

/-! ### Case equations for the feed selector -/

theorem issueFallback_queries (today : Nat) (b : FeedBackend) (prev : List EventsQuery)
    (pq : Bool) : (issueFallback today b prev pq).queries = prev ++ [fallbackQuery today] := by
  unfold issueFallback
  cases b.fallbackQueryError <;> rfl

theorem issueFallback_events_ok (today : Nat) (b : FeedBackend) (prev : List EventsQuery)
    (pq : Bool) (h : b.fallbackQueryError = none) :
    (issueFallback today b prev pq).events = runEventsQuery b.db (fallbackQuery today) := by
  unfold issueFallback
  rw [h]

theorem issueFallback_events_err (today : Nat) (b : FeedBackend) (prev : List EventsQuery)
    (pq : Bool) (e : String) (h : b.fallbackQueryError = some e) :
    (issueFallback today b prev pq).events = [] := by
  unfold issueFallback
  rw [h]

theorem issueFallback_events_indep (today : Nat) (b : FeedBackend)
    (prev prev' : List EventsQuery) (pq pq' : Bool) :
    (issueFallback today b prev pq).events = (issueFallback today b prev' pq').events := by
  unfold issueFallback
  cases b.fallbackQueryError <;> rfl

theorem fetchFeaturedEvents_eq_noInts (today : Nat) (user : Option String) (b : FeedBackend)
    (heff : effectiveInterests user b = none) :
    fetchFeaturedEvents today user b = issueFallback today b [] user.isSome := by
  unfold fetchFeaturedEvents
  rw [heff]

theorem fetchFeaturedEvents_eq_emptyInts (today : Nat) (user : Option String) (b : FeedBackend)
    (ints : List String) (heff : effectiveInterests user b = some ints)
    (hlen : ints.length = 0) :
    fetchFeaturedEvents today user b = issueFallback today b [] user.isSome := by
  unfold fetchFeaturedEvents
  rw [heff]
  simp only [hlen, Nat.lt_irrefl, if_false]

theorem fetchFeaturedEvents_eq_interestErr (today : Nat) (user : Option String)
    (b : FeedBackend) (ints : List String) (e : String)
    (heff : effectiveInterests user b = some ints) (hlen : 0 < ints.length)
    (herr : b.interestQueryError = some e) :
    fetchFeaturedEvents today user b =
      { events := [], queries := [interestQuery today ints], profileQueried := user.isSome } := by
  unfold fetchFeaturedEvents
  simp only [heff, hlen, if_true, herr]

theorem fetchFeaturedEvents_eq_interestHit (today : Nat) (user : Option String)
    (b : FeedBackend) (ints : List String)
    (heff : effectiveInterests user b = some ints) (hlen : 0 < ints.length)
    (hok : b.interestQueryError = none)
    (hd : 0 < (runEventsQuery b.db (interestQuery today ints)).length) :
    fetchFeaturedEvents today user b =
      { events := runEventsQuery b.db (interestQuery today ints)
        queries := [interestQuery today ints]
        profileQueried := user.isSome } := by
  unfold fetchFeaturedEvents
  simp only [heff, hlen, if_true, hok, hd]

theorem fetchFeaturedEvents_eq_interestMiss (today : Nat) (user : Option String)
    (b : FeedBackend) (ints : List String)
    (heff : effectiveInterests user b = some ints) (hlen : 0 < ints.length)
    (hok : b.interestQueryError = none)
    (hd : (runEventsQuery b.db (interestQuery today ints)).length = 0) :
    fetchFeaturedEvents today user b = issueFallback today b [interestQuery today ints] user.isSome := by
  unfold fetchFeaturedEvents
  simp only [heff, hlen, if_true, hok, hd, Nat.lt_irrefl, if_false]

/-! ### Row-level facts about `runEventsQuery` -/

theorem runEventsQuery_length_le (db : List FeaturedEvent) (q : EventsQuery) :
    (runEventsQuery db q).length ≤ q.lim := by
  unfold runEventsQuery
  exact List.length_take_le _ _

theorem runEventsQuery_mem_matches (db : List FeaturedEvent) (q : EventsQuery)
    (e : FeaturedEvent) (he : e ∈ runEventsQuery db q) : matchesEventsQuery q e = true := by
  unfold runEventsQuery at he
  have h1 := List.take_subset _ _ he
  by_cases ha : q.ascending = true
  · rw [if_pos ha] at h1
    exact (List.mem_filter.1 ((List.mem_insertionSort dateLe).1 h1)).2
  · rw [if_neg ha] at h1
    exact (List.mem_filter.1 ((List.mem_insertionSort _).1 h1)).2

theorem runEventsQuery_sorted (db : List FeaturedEvent) (q : EventsQuery)
    (hq : q.ascending = true) : List.Sorted dateLe (runEventsQuery db q) := by
  unfold runEventsQuery
  rw [if_pos hq]
  exact List.Pairwise.sublist (List.take_sublist _ _) (List.sorted_insertionSort dateLe _)

/-! ### Feed claims -/

/-- C1: when no injected error hits the two events-table queries, if the
interest-filtered query of step 2 yields zero rows — including when there is
no user, no interests, or the query returns nothing — the fallback query is
issued and the result is its row list; and in every run the returned list is
exactly one of the two event lists (the non-empty interest-filtered list, or
the fallback list), never a merge of both. -/
theorem feed_fallback_and_exclusivity (today : Nat) (user : Option String) (b : FeedBackend)
    (h1 : b.interestQueryError = none) (h2 : b.fallbackQueryError = none) :
    ((∀ ints, effectiveInterests user b = some ints → 0 < ints.length →
        runEventsQuery b.db (interestQuery today ints) = []) →
      fallbackQuery today ∈ (fetchFeaturedEvents today user b).queries ∧
        (fetchFeaturedEvents today user b).events = runEventsQuery b.db (fallbackQuery today)) ∧
    ((∃ ints, effectiveInterests user b = some ints ∧ 0 < ints.length ∧
        runEventsQuery b.db (interestQuery today ints) ≠ [] ∧
        (fetchFeaturedEvents today user b).events =
          runEventsQuery b.db (interestQuery today ints)) ∨
      (fetchFeaturedEvents today user b).events = runEventsQuery b.db (fallbackQuery today)) := by
  cases heff : effectiveInterests user b with
  | none =>
    rw [fetchFeaturedEvents_eq_noInts today user b heff]
    refine ⟨fun _ => ⟨?_, issueFallback_events_ok today b [] user.isSome h2⟩,
      Or.inr (issueFallback_events_ok today b [] user.isSome h2)⟩
    rw [issueFallback_queries]
    exact List.mem_singleton.2 rfl
  | some ints =>
    by_cases hlen : 0 < ints.length
    · by_cases hd : 0 < (runEventsQuery b.db (interestQuery today ints)).length
      · rw [fetchFeaturedEvents_eq_interestHit today user b ints heff hlen h1 hd]
        constructor
        · intro hmiss
          exact absurd (hmiss ints rfl hlen)
            (List.ne_nil_of_length_pos hd)
        · exact Or.inl ⟨ints, rfl, hlen, List.ne_nil_of_length_pos hd, rfl⟩
      · have hd0 : (runEventsQuery b.db (interestQuery today ints)).length = 0 :=
          Nat.eq_zero_of_not_pos hd
        rw [fetchFeaturedEvents_eq_interestMiss today user b ints heff hlen h1 hd0]
        refine ⟨fun _ => ⟨?_, issueFallback_events_ok today b _ user.isSome h2⟩,
          Or.inr (issueFallback_events_ok today b _ user.isSome h2)⟩
        rw [issueFallback_queries]
        exact List.mem_append_right _ (List.mem_singleton.2 rfl)
    · have hlen0 : ints.length = 0 := Nat.eq_zero_of_not_pos hlen
      rw [fetchFeaturedEvents_eq_emptyInts today user b ints heff hlen0]
      refine ⟨fun _ => ⟨?_, issueFallback_events_ok today b [] user.isSome h2⟩,
        Or.inr (issueFallback_events_ok today b [] user.isSome h2)⟩
      rw [issueFallback_queries]
      exact List.mem_singleton.2 rfl

/-- The backend of an empty deployment: no events, no profile interests,
no injected failures. -/
def emptyFeedBackend : FeedBackend :=
  { db := [], profileInterests := .ok none, interestQueryError := none,
    fallbackQueryError := none }

/-- Witness for C1 at a concrete input. -/
theorem feed_fallback_and_exclusivity_witness :
    fallbackQuery 0 ∈ (fetchFeaturedEvents 0 none emptyFeedBackend).queries ∧
    (fetchFeaturedEvents 0 none emptyFeedBackend).events =
      runEventsQuery emptyFeedBackend.db (fallbackQuery 0) :=
  (feed_fallback_and_exclusivity 0 none emptyFeedBackend rfl rfl).1
    (fun _ h _ => Option.noConfusion h)

/-- C7: with no user, the feed is the recency-ordered fallback list: it is
the fallback query's row list, that query alone is issued, its length is at
most 3, every event's date is at least today, and dates are ascending. -/
theorem selectFeaturedEvents_no_user (today : Nat) (b : FeedBackend)
    (h : b.fallbackQueryError = none) :
    (fetchFeaturedEvents today none b).events = runEventsQuery b.db (fallbackQuery today) ∧
    (fetchFeaturedEvents today none b).queries = [fallbackQuery today] ∧
    (fetchFeaturedEvents today none b).events.length ≤ 3 ∧
    (∀ e ∈ (fetchFeaturedEvents today none b).events, today ≤ e.date) ∧
    List.Sorted dateLe (fetchFeaturedEvents today none b).events := by
  have hfe : fetchFeaturedEvents today none b = issueFallback today b [] false :=
    fetchFeaturedEvents_eq_noInts today none b rfl
  have hev : (fetchFeaturedEvents today none b).events =
      runEventsQuery b.db (fallbackQuery today) := by
    rw [hfe]
    exact issueFallback_events_ok today b [] false h
  refine ⟨hev, ?_, ?_, ?_, ?_⟩
  · rw [hfe, issueFallback_queries]
    rfl
  · rw [hev]
    exact runEventsQuery_length_le b.db (fallbackQuery today)
  · intro e he
    rw [hev] at he
    have hm := runEventsQuery_mem_matches b.db (fallbackQuery today) e he
    unfold matchesEventsQuery at hm
    exact of_decide_eq_true (Bool.and_elim_left hm)
  · rw [hev]
    exact runEventsQuery_sorted b.db (fallbackQuery today) rfl

/-- A backend with two upcoming events, stored out of date order. -/
def twoEventFeedBackend : FeedBackend :=
  { db := [{ id := "e4", title := "Late", date := 9, image_url := none,
             category := none, clubName := none },
           { id := "e3", title := "Soon", date := 4, image_url := none,
             category := some "sports", clubName := none }],
    profileInterests := .ok none, interestQueryError := none,
    fallbackQueryError := none }

/-- Witness for C7 at a concrete input. -/
theorem selectFeaturedEvents_no_user_witness :
    (fetchFeaturedEvents 2 none twoEventFeedBackend).events.length ≤ 3 ∧
    List.Sorted dateLe (fetchFeaturedEvents 2 none twoEventFeedBackend).events ∧
    (∀ e ∈ (fetchFeaturedEvents 2 none twoEventFeedBackend).events, 2 ≤ e.date) :=
  ⟨(selectFeaturedEvents_no_user 2 twoEventFeedBackend rfl).2.2.1,
   (selectFeaturedEvents_no_user 2 twoEventFeedBackend rfl).2.2.2.2,
   (selectFeaturedEvents_no_user 2 twoEventFeedBackend rfl).2.2.2.1⟩

/-- C6: a user whose interests match zero upcoming events gets exactly the
no-user fallback list. -/
theorem feed_interest_miss_matches_no_user (today : Nat) (u : String) (b : FeedBackend)
    (h1 : b.interestQueryError = none)
    (hmiss : ∀ ints, effectiveInterests (some u) b = some ints →
        runEventsQuery b.db (interestQuery today ints) = []) :
    (fetchFeaturedEvents today (some u) b).events = (fetchFeaturedEvents today none b).events := by
  have hnone : fetchFeaturedEvents today none b = issueFallback today b [] false :=
    fetchFeaturedEvents_eq_noInts today none b rfl
  cases heff : effectiveInterests (some u) b with
  | none =>
    rw [fetchFeaturedEvents_eq_noInts today (some u) b heff, hnone]
    exact issueFallback_events_indep today b [] [] true false
  | some ints =>
    by_cases hlen : 0 < ints.length
    · have hd0 : (runEventsQuery b.db (interestQuery today ints)).length = 0 := by
        rw [hmiss ints heff]
        rfl
      rw [fetchFeaturedEvents_eq_interestMiss today (some u) b ints heff hlen h1 hd0, hnone]
      exact issueFallback_events_indep today b _ [] true false
    · have hlen0 : ints.length = 0 := Nat.eq_zero_of_not_pos hlen
      rw [fetchFeaturedEvents_eq_emptyInts today (some u) b ints heff hlen0, hnone]
      exact issueFallback_events_indep today b [] [] true false

/-- The spec scenario for C6: the user is interested in music, and the only
upcoming event is a sports event tomorrow. -/
def musicScenarioEvent : FeaturedEvent :=
  { id := "e1", title := "Campus Match", date := 11, image_url := none,
    category := some "sports", clubName := none }

/-- Backend for the C6 scenario. -/
def musicScenarioBackend : FeedBackend :=
  { db := [musicScenarioEvent], profileInterests := .ok (some ["music"]),
    interestQueryError := none, fallbackQueryError := none }

/-- Witness for C6 at the spec's scenario: interests = ["music"], the single
upcoming event is a sports event, and the result is the fallback list
containing that sports event, not the empty list. -/
theorem feed_interest_miss_matches_no_user_witness :
    (fetchFeaturedEvents 10 (some "u1") musicScenarioBackend).events =
      (fetchFeaturedEvents 10 none musicScenarioBackend).events ∧
    (fetchFeaturedEvents 10 (some "u1") musicScenarioBackend).events = [musicScenarioEvent] := by
  have h := feed_interest_miss_matches_no_user 10 "u1" musicScenarioBackend rfl
    (fun ints hints => by
      have : some ["music"] = some ints := hints
      cases this
      decide)
  refine ⟨h, ?_⟩
  rw [h]
  decide

/-- C8 counterexample: the profile-interests read is a backend query, and
when it errors the feed computation does not abort with an empty list — it
proceeds to the fallback and returns its rows. -/
def profileErrBackend : FeedBackend :=
  { db := [{ id := "e9", title := "Arts Expo", date := 6, image_url := none,
             category := some "arts", clubName := none }],
    profileInterests := .error "profile read failed",
    interestQueryError := none, fallbackQueryError := none }

/-- C8 counterexample: with a failing profile read and one upcoming event,
the feed is non-empty, contradicting "any query error yields an empty
list". -/
theorem feed_any_error_empty_counterexample :
    profileErrBackend.profileInterests = Except.error "profile read failed" ∧
    (fetchFeaturedEvents 5 (some "u2") profileErrBackend).profileQueried = true ∧
    (fetchFeaturedEvents 5 (some "u2") profileErrBackend).events ≠ [] := by
  refine ⟨rfl, rfl, ?_⟩
  decide

/-- C8 amended: an error thrown by either events-table query (interest or
fallback) aborts the computation and yields the empty list without
escalation; an error on the profile read does not abort — interests are
treated as absent and the fallback query is still the one query issued. -/
theorem feed_error_handling (today : Nat) (user : Option String) (b : FeedBackend) :
    (∀ ints e, effectiveInterests user b = some ints → 0 < ints.length →
        b.interestQueryError = some e → (fetchFeaturedEvents today user b).events = []) ∧
    (∀ e, b.fallbackQueryError = some e →
        fallbackQuery today ∈ (fetchFeaturedEvents today user b).queries →
        (fetchFeaturedEvents today user b).events = []) ∧
    (∀ e, user.isSome = true → b.profileInterests = Except.error e →
        (fetchFeaturedEvents today user b).queries = [fallbackQuery today]) := by
  refine ⟨?_, ?_, ?_⟩
  · intro ints e heff hlen herr
    rw [fetchFeaturedEvents_eq_interestErr today user b ints e heff hlen herr]
  · intro e herr hmem
    cases heff : effectiveInterests user b with
    | none =>
      rw [fetchFeaturedEvents_eq_noInts today user b heff]
      exact issueFallback_events_err today b [] user.isSome e herr
    | some ints =>
      by_cases hlen : 0 < ints.length
      · cases hie : b.interestQueryError with
        | some e' =>
          rw [fetchFeaturedEvents_eq_interestErr today user b ints e' heff hlen hie]
        | none =>
          by_cases hd : 0 < (runEventsQuery b.db (interestQuery today ints)).length
          · rw [fetchFeaturedEvents_eq_interestHit today user b ints heff hlen hie hd] at hmem
            exact absurd (List.mem_singleton.1 hmem) (by simp [fallbackQuery, interestQuery])
          · have hd0 : (runEventsQuery b.db (interestQuery today ints)).length = 0 :=
              Nat.eq_zero_of_not_pos hd
            rw [fetchFeaturedEvents_eq_interestMiss today user b ints heff hlen hie hd0]
            exact issueFallback_events_err today b _ user.isSome e herr
      · have hlen0 : ints.length = 0 := Nat.eq_zero_of_not_pos hlen
        rw [fetchFeaturedEvents_eq_emptyInts today user b ints heff hlen0]
        exact issueFallback_events_err today b [] user.isSome e herr
  · intro e _ hperr
    have heff : effectiveInterests user b = none := by
      cases user with
      | none => rfl
      | some _ =>
        unfold effectiveInterests
        rw [hperr]
    rw [fetchFeaturedEvents_eq_noInts today user b heff, issueFallback_queries]
    rfl

/-- Witness for C8's amended statement at a concrete input: a failing
fallback query yields the empty list. -/
def fallbackErrBackend : FeedBackend :=
  { db := [{ id := "e5", title := "Gala", date := 8, image_url := none,
             category := none, clubName := none }],
    profileInterests := .ok none, interestQueryError := none,
    fallbackQueryError := some "network down" }

/-- Witness for C8 amended. -/
theorem feed_error_handling_witness :
    (fetchFeaturedEvents 1 none fallbackErrBackend).events = [] :=
  (feed_error_handling 1 none fallbackErrBackend).2.1 "network down" rfl (by decide)

/-! ### Search claims -/

theorem runEventsSearch_length_le (db : List SearchEvent) (q : String) :
    (runEventsSearch db q).length ≤ 10 := by
  unfold runEventsSearch
  exact List.length_take_le _ _

theorem runClubsSearch_length_le (db : List SearchClub) (q : String) :
    (runClubsSearch db q).length ≤ 10 := by
  unfold runClubsSearch
  exact List.length_take_le _ _

theorem runAnnsSearch_length_le (db : List SearchAnnouncement) (q : String) :
    (runAnnsSearch db q).length ≤ 10 := by
  unfold runAnnsSearch
  exact List.length_take_le _ _

/-- C2: for a non-empty query, an injected failure on any of the three
category queries leaves the run in a single error state, and the render gate
then shows the error and no category data. -/
theorem search_failure_single_error (q : String) (hq : ¬ q = "") (b : SearchBackend)
    (s : SearchState)
    (h : b.eventsError.isSome = true ∨ b.clubsError.isSome = true ∨
      b.annsError.isSome = true) :
    ∃ msg, (performSearch (some q) b s).1.error = some msg ∧
      renderSearch (performSearch (some q) b s).1 = SearchView.failure msg := by
  simp only [performSearch]
  rw [if_neg hq]
  cases he : b.eventsError with
  | some e => exact ⟨e, rfl, rfl⟩
  | none =>
    cases hc : b.clubsError with
    | some e => exact ⟨e, rfl, rfl⟩
    | none =>
      cases ha : b.annsError with
      | some e => exact ⟨e, rfl, rfl⟩
      | none =>
        rw [he, hc, ha] at h
        simp at h

/-- A backend whose events query fails. -/
def failingSearchBackend : SearchBackend :=
  { eventsDb := [], clubsDb := [], annsDb := [], eventsError := some "network down",
    clubsError := none, annsError := none }

/-- Witness for C2. -/
theorem search_failure_single_error_witness :
    ∃ msg, (performSearch (some "hack") failingSearchBackend initialSearchState).1.error =
        some msg ∧
      renderSearch (performSearch (some "hack") failingSearchBackend initialSearchState).1 =
        SearchView.failure msg :=
  search_failure_single_error "hack" (by decide) failingSearchBackend initialSearchState
    (Or.inl rfl)

/-- C3 counterexample: when the events query fails, only one backend query is
issued, so the non-empty query "hack" does not lead to three (independent,
parallel) category queries. -/
theorem search_three_queries_counterexample :
    ((performSearch (some "hack") failingSearchBackend initialSearchState).2).length = 1 ∧
    ¬ ((performSearch (some "hack") failingSearchBackend initialSearchState).2).length = 3 := by
  constructor <;> decide

/-- C3 amended: for a non-empty query the three category queries are issued
sequentially — events, then clubs, then announcements, each only after the
previous succeeded. When all three succeed, exactly the three filtered
queries are issued (limit 10 each, announcements newest-first), each
category's rows are its own query's rows, and per-category counts are ≤ 10. -/
theorem search_queries_issued (q : String) (hq : ¬ q = "") (b : SearchBackend)
    (s : SearchState) :
    (b.eventsError = none → b.clubsError = none → b.annsError = none →
      (performSearch (some q) b s).2 =
        [SearchQuery.events q 10, SearchQuery.clubs q 10,
         SearchQuery.announcements q true 10] ∧
      (performSearch (some q) b s).1.events = runEventsSearch b.eventsDb q ∧
      (performSearch (some q) b s).1.clubs = runClubsSearch b.clubsDb q ∧
      (performSearch (some q) b s).1.announcements = runAnnsSearch b.annsDb q ∧
      (performSearch (some q) b s).1.events.length ≤ 10 ∧
      (performSearch (some q) b s).1.clubs.length ≤ 10 ∧
      (performSearch (some q) b s).1.announcements.length ≤ 10) ∧
    (∀ e, b.eventsError = some e →
      (performSearch (some q) b s).2 = [SearchQuery.events q 10]) ∧
    (∀ e, b.eventsError = none → b.clubsError = some e →
      (performSearch (some q) b s).2 = [SearchQuery.events q 10, SearchQuery.clubs q 10]) ∧
    (∀ e, b.eventsError = none → b.clubsError = none → b.annsError = some e →
      (performSearch (some q) b s).2 =
        [SearchQuery.events q 10, SearchQuery.clubs q 10,
         SearchQuery.announcements q true 10]) := by
  refine ⟨?_, ?_, ?_, ?_⟩
  · intro h1 h2 h3
    simp only [performSearch]
    rw [if_neg hq, h1, h2, h3]
    exact ⟨rfl, rfl, rfl, rfl, runEventsSearch_length_le b.eventsDb q,
      runClubsSearch_length_le b.clubsDb q, runAnnsSearch_length_le b.annsDb q⟩
  · intro e h1
    simp only [performSearch]
    rw [if_neg hq, h1]
  · intro e h1 h2
    simp only [performSearch]
    rw [if_neg hq, h1, h2]
  · intro e h1 h2 h3
    simp only [performSearch]
    rw [if_neg hq, h1, h2, h3]

/-- A healthy backend containing the spec's "Hackathon" row. -/
def okSearchBackend : SearchBackend :=
  { eventsDb := [{ id := "s3", title := "Hackathon", date := 12,
                   description := "code all night" }],
    clubsDb := [], annsDb := [], eventsError := none, clubsError := none,
    annsError := none }

/-- Witness for C3 amended, at the spec's "hack"/"Hackathon" scenario. -/
theorem search_queries_issued_witness :
    (performSearch (some "hack") okSearchBackend initialSearchState).2 =
      [SearchQuery.events "hack" 10, SearchQuery.clubs "hack" 10,
       SearchQuery.announcements "hack" true 10] ∧
    (performSearch (some "hack") okSearchBackend initialSearchState).1.events =
      runEventsSearch okSearchBackend.eventsDb "hack" ∧
    (performSearch (some "hack") okSearchBackend initialSearchState).1.events.length ≤ 10 :=
  ⟨((search_queries_issued "hack" (by decide) okSearchBackend initialSearchState).1
      rfl rfl rfl).1,
   ((search_queries_issued "hack" (by decide) okSearchBackend initialSearchState).1
      rfl rfl rfl).2.1,
   ((search_queries_issued "hack" (by decide) okSearchBackend initialSearchState).1
      rfl rfl rfl).2.2.2.2.1⟩

/-- A backend with no rows and no failures. -/
def idleSearchBackend : SearchBackend :=
  { eventsDb := [], clubsDb := [], annsDb := [], eventsError := none,
    clubsError := none, annsError := none }

/-- A state still holding the results of an earlier, different query. -/
def staleSearchState : SearchState :=
  { events := [{ id := "s9", title := "Old Result", date := 3, description := "stale" }],
    clubs := [], announcements := [], loading := true, error := none }

/-- C4 counterexample: `performSearch` on the empty query issues no backend
call but does not clear the previously held result lists, so from a state
still holding an earlier query's rows the result set is not empty. -/
theorem search_empty_query_counterexample :
    (performSearch (some "") idleSearchBackend staleSearchState).2 = [] ∧
    ¬ (performSearch (some "") idleSearchBackend staleSearchState).1.events = [] := by
  constructor <;> decide

/-- C4 amended: an empty (or absent) query issues zero backend calls and
returns the prior state with only the loading flag cleared; from the initial
(mount) state the three result lists are therefore empty. -/
theorem search_empty_query (query : Option String) (b : SearchBackend) (s : SearchState)
    (h : query = none ∨ query = some "") :
    (performSearch query b s).2 = [] ∧
    (performSearch query b s).1 = { s with loading := false } ∧
    (performSearch query b initialSearchState).1.events = [] ∧
    (performSearch query b initialSearchState).1.clubs = [] ∧
    (performSearch query b initialSearchState).1.announcements = [] := by
  cases h with
  | inl h =>
    subst h
    exact ⟨rfl, rfl, rfl, rfl, rfl⟩
  | inr h =>
    subst h
    exact ⟨rfl, rfl, rfl, rfl, rfl⟩

/-- Witness for C4 amended. -/
theorem search_empty_query_witness :
    (performSearch (some "") idleSearchBackend initialSearchState).2 = [] ∧
    (performSearch (some "") idleSearchBackend initialSearchState).1.events = [] :=
  ⟨(search_empty_query (some "") idleSearchBackend initialSearchState (Or.inr rfl)).1,
   (search_empty_query (some "") idleSearchBackend initialSearchState (Or.inr rfl)).2.2.1⟩

/-! ### The stale-search race (claim C5) -/

/-- A successful non-empty search equals its chunked (await-split) form, so
the chunk list is a faithful decomposition of `performSearch`. -/
theorem performSearch_eq_chunks (q : String) (hq : ¬ q = "") (b : SearchBackend)
    (h1 : b.eventsError = none) (h2 : b.clubsError = none) (h3 : b.annsError = none)
    (s : SearchState) :
    (performSearch (some q) b s).1 = runActions (searchChunks b q) s := by
  simp only [performSearch]
  rw [if_neg hq, h1, h2, h3]
  unfold runActions searchChunks
  rfl

/-- An event matching only the stale query "alpha". -/
def alphaEvent : SearchEvent :=
  { id := "s1", title := "Alpha Night", date := 1, description := "first" }

/-- An event matching only the newer query "beta". -/
def betaEvent : SearchEvent :=
  { id := "s2", title := "Beta Fair", date := 2, description := "second" }

/-- The backend for the race scenario: both events, no failures. -/
def raceBackend : SearchBackend :=
  { eventsDb := [alphaEvent, betaEvent], clubsDb := [], annsDb := [],
    eventsError := none, clubsError := none, annsError := none }

/-- The event-loop schedule in which the search for "alpha" runs its
synchronous prefix, the query changes to "beta", the "beta" run completes,
and only then do the stale "alpha" run's pending awaits resolve. Each run's
chunks appear in their own order, so this is a valid cooperative
interleaving of the two runs. -/
def staleRaceFinal : SearchState :=
  runActions ((searchChunks raceBackend "alpha").take 1 ++
    searchChunks raceBackend "beta" ++
    (searchChunks raceBackend "alpha").drop 1) initialSearchState

/-- C5 fails on the code: under the schedule of `staleRaceFinal` the stale
"alpha" result overwrites the newer "beta" result, and the page renders the
"alpha" rows with no loading flag and no error, differing from what the
latest query "beta" alone produces. -/
theorem search_race_stale_overwrite :
    staleRaceFinal.loading = false ∧ staleRaceFinal.error = none ∧
    staleRaceFinal.events = [alphaEvent] ∧
    (performSearch (some "beta") raceBackend initialSearchState).1.events = [betaEvent] ∧
    renderSearch staleRaceFinal = SearchView.results [alphaEvent] [] [] ∧
    ¬ renderSearch staleRaceFinal =
        renderSearch (performSearch (some "beta") raceBackend initialSearchState).1 := by
  refine ⟨rfl, rfl, ?_, ?_, ?_, ?_⟩ <;> decide

/-! ### Edit-announcement claim -/

/-- C9: submitting the edit form with a user who is neither the creator nor
an admin, or with a blank trimmed title or content, issues no update and sets
an error; when the update is issued it carries the trimmed title and content
filtered on the announcement's id, and applying it to the table rewrites
exactly the rows whose id matches, leaving every other row unchanged. -/
theorem edit_announcement_submit (a : AnnouncementRow) (user : Option AuthUser)
    (title content : String) (db : List AnnouncementRow) :
    (canEditAnnouncement user a = false →
      handleSubmit (some a) user title content =
        SubmitOutcome.err "You don't have permission to edit this announcement.") ∧
    ((strTrim title = "" ∨ strTrim content = "") →
      ∃ m, handleSubmit (some a) user title content = SubmitOutcome.err m) ∧
    (handleSubmit none user title content =
      SubmitOutcome.err "No announcement selected for editing.") ∧
    (∀ q, handleSubmit (some a) user title content = SubmitOutcome.update q →
      q.newTitle = strTrim title ∧ q.newContent = strTrim content ∧ q.idEq = a.id ∧
      ∀ i : Nat, (applyAnnUpdate db q)[i]? = (db[i]?).map fun r =>
        if r.id = a.id then { r with title := strTrim title, content := strTrim content }
        else r) := by
  refine ⟨?_, ?_, rfl, ?_⟩
  · intro h
    simp only [handleSubmit, h]
    rfl
  · intro h
    cases hce : canEditAnnouncement user a with
    | false =>
      exact ⟨"You don't have permission to edit this announcement.",
        by simp only [handleSubmit, hce]; rfl⟩
    | true =>
      refine ⟨"Title and content cannot be empty.", ?_⟩
      simp only [handleSubmit, hce, Bool.not_true, Bool.false_eq_true, if_false]
      rw [if_pos (by simp only [Bool.or_eq_true, decide_eq_true_eq]; exact h)]
  · intro q hq
    simp only [handleSubmit] at hq
    cases hce : canEditAnnouncement user a with
    | false =>
      rw [hce] at hq
      exact absurd hq (by simp)
    | true =>
      rw [hce] at hq
      simp only [Bool.not_true, Bool.false_eq_true, if_false] at hq
      by_cases hb : (decide (strTrim title = "") || decide (strTrim content = "")) = true
      · rw [if_pos hb] at hq
        exact absurd hq (by simp)
      · rw [if_neg hb] at hq
        cases hq
        refine ⟨rfl, rfl, rfl, fun i => ?_⟩
        unfold applyAnnUpdate
        rw [List.getElem?_map]

/-- The announcement edited in the C9 witness. -/
def witnessAnn : AnnouncementRow :=
  { id := "a1", title := "Old", content := "Old body", created_at := 1,
    created_by := some "creator-1" }

/-- A second, unrelated announcement row. -/
def otherAnn : AnnouncementRow :=
  { id := "a2", title := "Keep", content := "Keep body", created_at := 2,
    created_by := some "creator-2" }

/-- Witness for C9: the creator submits trimmed values; the update carries
the trimmed title and content, and applying it rewrites row "a1" and leaves
row "a2" unchanged; a stranger's submission yields the permission error. -/
theorem edit_announcement_submit_witness :
    handleSubmit (some witnessAnn) (some { id := "creator-1", is_admin := false })
      "  New  " " Fresh body " =
      SubmitOutcome.update { newTitle := "New", newContent := "Fresh body", idEq := "a1" } ∧
    (applyAnnUpdate [witnessAnn, otherAnn]
        { newTitle := "New", newContent := "Fresh body", idEq := "a1" })[0]? =
      some { witnessAnn with title := "New", content := "Fresh body" } ∧
    (applyAnnUpdate [witnessAnn, otherAnn]
        { newTitle := "New", newContent := "Fresh body", idEq := "a1" })[1]? =
      some otherAnn ∧
    handleSubmit (some witnessAnn) (some { id := "stranger", is_admin := false })
      "  New  " " Fresh body " =
      SubmitOutcome.err "You don't have permission to edit this announcement." := by
  have hupd : handleSubmit (some witnessAnn)
      (some { id := "creator-1", is_admin := false }) "  New  " " Fresh body " =
      SubmitOutcome.update { newTitle := "New", newContent := "Fresh body", idEq := "a1" } := by
    decide
  have h := (edit_announcement_submit witnessAnn
      (some { id := "creator-1", is_admin := false }) "  New  " " Fresh body "
      [witnessAnn, otherAnn]).2.2.2
      { newTitle := "New", newContent := "Fresh body", idEq := "a1" } hupd
  have hperm := (edit_announcement_submit witnessAnn
      (some { id := "stranger", is_admin := false }) "  New  " " Fresh body "
      [witnessAnn, otherAnn]).1 (by decide)
  refine ⟨hupd, ?_, ?_, hperm⟩
  · rw [h.2.2.2 0]
    decide
  · rw [h.2.2.2 1]
    decide

/-! ### Clubs-page claim -/

/-- C10: when the clubs-page fetch fails — the clubs read errors, or the
membership read errors for a signed-in user — the previously held clubs list
and membership set are unchanged and the error message is set; the displayed
data is not cleared by the failed refetch. -/
theorem clubs_fetch_error_keeps_data (user : Option String) (b : ClubsBackend)
    (s : ClubsPageState)
    (h : (∃ e, b.clubsResult = Except.error e) ∨
      (user.isSome = true ∧ ∃ e, b.membershipResult = Except.error e)) :
    (fetchData user b s).clubs = s.clubs ∧
    (fetchData user b s).memberships = s.memberships ∧
    (∃ e, (fetchData user b s).error = some e) := by
  have hclubs : (if s.clubs.length = 0 then { s with loading := true } else s).clubs =
      s.clubs := by
    split <;> rfl
  have hmem : (if s.clubs.length = 0 then { s with loading := true } else s).memberships =
      s.memberships := by
    split <;> rfl
  cases hc : b.clubsResult with
  | error e =>
    unfold fetchData
    rw [hc]
    exact ⟨hclubs, hmem, e, rfl⟩
  | ok clubsData =>
    cases h with
    | inl h =>
      obtain ⟨e, he⟩ := h
      rw [hc] at he
      exact absurd he (by simp)
    | inr h =>
      obtain ⟨hu, e, he⟩ := h
      cases user with
      | none => exact absurd hu (by simp)
      | some uid =>
        unfold fetchData
        rw [hc, he]
        exact ⟨hclubs, hmem, e, rfl⟩

/-- A club row held by the page before the refetch. -/
def chessClub : ClubRow :=
  { id := "c1", name := "Chess Club", description := "Boards", created_by := some "u1" }

/-- The clubs-page state already holding fetched data. -/
def populatedClubsState : ClubsPageState :=
  { clubs := [chessClub], memberships := ["c1"], loading := false, error := none }

/-- A backend whose clubs read fails. -/
def failingClubsBackend : ClubsBackend :=
  { clubsResult := Except.error "load failed", membershipResult := Except.ok [] }

/-- Witness for C10. -/
theorem clubs_fetch_error_keeps_data_witness :
    (fetchData (some "u1") failingClubsBackend populatedClubsState).clubs =
      populatedClubsState.clubs ∧
    (fetchData (some "u1") failingClubsBackend populatedClubsState).memberships =
      populatedClubsState.memberships ∧
    (∃ e, (fetchData (some "u1") failingClubsBackend populatedClubsState).error = some e) :=
  clubs_fetch_error_keeps_data (some "u1") failingClubsBackend populatedClubsState
    (Or.inl ⟨"load failed", rfl⟩)
